import Mathlib

/-!
Verification development for the FeOS compute-node agent.

The definitions below are shallow embeddings of the Rust functions in the
repository, translated declaration by declaration:

* src/src/dhcpv6.rs : `mac_to_ipv6_link_local`, `is_dhcpv6_needed`,
  `run_dhcpv6_client`
* src/src/vm/mod.rs : `Manager::init_vmm`, `Manager::create_vm`
* src/feos/services/task-service/src/worker.rs : `run_youki_command`,
  `handle_create`, `handle_start`, `wait_for_process_exit`
* src/src/isolated_container/mod.rs : `retry_get_channel`

IPv6 addresses are represented as their 16-byte sequences (`List Nat`,
each entry a byte value).  Effectful steps (packet receipt, socket
operations, the filesystem) are made explicit: a function that reads from
a channel becomes a function over the finite list of items the channel
yields before it blocks or closes, and socket / process / filesystem
outcomes become fields of an environment record passed to the function.
-/

namespace FeOS

/-! ### src/src/dhcpv6.rs — `mac_to_ipv6_link_local` (lines 25-42)

The Rust function takes a byte slice; when its length is 6 it fills a
16-byte array: bytes 0-1 are 0xfe,0x80, bytes 2-7 stay zero, byte 8 is
mac[0] XOR 0b10, bytes 9-10 are mac[1..2], bytes 11-12 are 0xff,0xfe and
bytes 13-15 are mac[3..5]; otherwise it returns None. -/

def mac_to_ipv6_link_local (mac_address : List Nat) : Option (List Nat) :=
  if mac_address.length = 6 then
    some [0xfe, 0x80, 0, 0, 0, 0, 0, 0,
          (mac_address.get! 0) ^^^ 0b00000010,
          mac_address.get! 1,
          mac_address.get! 2,
          0xff, 0xfe,
          mac_address.get! 3,
          mac_address.get! 4,
          mac_address.get! 5]
  else
    none

/-! ### src/src/dhcpv6.rs — `is_dhcpv6_needed` (lines 145-191)

The Rust function sends a Router Solicitation and then loops over the
raw frames the datalink channel yields.  For every frame with ethertype
IPv6 it records the IPv6 source address; if the frame parses as ICMPv6
with type RouterAdvert (134) and the Router Advertisement packet parses,
it breaks out of the loop when `(flags & 0xC0) == 0xC0 || ignore_ra_flag`.
When the channel stops yielding frames the loop ends and the function
returns the last recorded source address.

A received frame is modelled by the outcome of the parse chain the code
applies to it: `ethertypeIpv6` is whether `get_ethertype() == Ipv6`,
`srcAddr` is the IPv6 source, and `icmp` is `some (ty, raFlags)` when
`Icmpv6Packet::new` succeeds, with `ty` the ICMPv6 type and `raFlags`
the flags byte when `RouterAdvertPacket::new` succeeds as well. -/

def routerAdvertType : Nat := 134

structure RecvFrame where
  ethertypeIpv6 : Bool
  srcAddr : List Nat
  icmp : Option (Nat × Option Nat)
  deriving DecidableEq, Repr

/-- The break condition of the receive loop:
`(router_advert.get_flags() & 0xC0) == 0xC0 || ignore_ra_flag`. -/
def raProceed (flags : Nat) (ignore_ra_flag : Bool) : Bool :=
  (flags &&& 0xC0 == 0xC0) || ignore_ra_flag

/-- Whether one frame makes the receive loop break: it must have
ethertype IPv6, parse as ICMPv6 with type RouterAdvert, parse as a
Router Advertisement, and satisfy `raProceed`. -/
def frameProceeds (ignore_ra_flag : Bool) (f : RecvFrame) : Bool :=
  f.ethertypeIpv6 &&
    (match f.icmp with
     | some (ty, some flags) => ty == routerAdvertType && raProceed flags ignore_ra_flag
     | _ => false)

/-- The receive loop of `is_dhcpv6_needed`, over the finite list of
frames the channel yields.  Returns `(broke, sender)` where `broke`
records whether the loop exited through the `break` (the caller then
proceeds to DHCPv6) and `sender` is the recorded router source address.
-/
def is_dhcpv6_needed_loop (ignore_ra_flag : Bool) :
    List RecvFrame → Option (List Nat) → Bool × Option (List Nat)
  | [], sender => (false, sender)
  | f :: rest, sender =>
    if f.ethertypeIpv6 then
      let sender' := some f.srcAddr
      if frameProceeds ignore_ra_flag f then
        (true, sender')
      else
        is_dhcpv6_needed_loop ignore_ra_flag rest sender'
    else
      is_dhcpv6_needed_loop ignore_ra_flag rest sender

/-- `is_dhcpv6_needed` on a trace of received frames: runs the loop with
no source address recorded yet. -/
def is_dhcpv6_needed (ignore_ra_flag : Bool) (frames : List RecvFrame) :
    Bool × Option (List Nat) :=
  is_dhcpv6_needed_loop ignore_ra_flag frames none

/-- A frame holding a parseable Router Advertisement with the given
flags byte and source address. -/
def raFrame (flags : Nat) (src : List Nat) : RecvFrame :=
  { ethertypeIpv6 := true, srcAddr := src, icmp := some (routerAdvertType, some flags) }

/-- A sample router link-local source address. -/
def sampleRouterAddr : List Nat :=
  [0xfe, 0x80, 0, 0, 0, 0, 0, 0, 0, 0, 0, 0, 0, 0, 0, 1]

/-! ### src/src/dhcpv6.rs — `run_dhcpv6_client` (lines 193-341)

The client binds UDP on port 546, builds one SOLICIT, sends it to
`[ff02::1:2]:547` and then loops on `recv_from`: an ADVERTISE makes it
send a REQUEST, a REPLY makes it record the contained IA address, send a
CONFIRM and break, anything else is ignored and the loop continues.
There is no deadline and no retry counter anywhere in the function; the
loop only ends on a REPLY, on a decode error (propagated by `?`) or by
blocking forever in `recv_from`.

DHCPv6 messages are modelled by the option fields the code reads and
writes.  The incoming trace is a list of `Option Dhcpv6Msg`; `none`
stands for a datagram on which `Message::decode` fails. -/

inductive MsgType where
  | solicit | advertise | request | reply | confirm | other
  deriving DecidableEq, Repr

/-- The four option codes the client puts into its ORO. -/
inductive OroCode where
  | domainNameServers | domainSearchList | clientFqdn | sntpServers
  deriving DecidableEq, Repr

structure IAAddrRec where
  addr : List Nat
  preferred_life : Nat
  valid_life : Nat
  deriving DecidableEq, Repr

structure IANARec where
  id : Nat
  t1 : Nat
  t2 : Nat
  iaaddr : Option IAAddrRec
  deriving DecidableEq, Repr

structure Dhcpv6Msg where
  msgType : MsgType
  xid : List Nat
  clientId : Option (List Nat)
  serverId : Option (List Nat)
  elapsedTime : Option Nat
  oro : Option (List OroCode)
  iana : Option IANARec
  deriving DecidableEq, Repr

/-- A message of the given type with the given transaction id and no
options, as produced by `Message::new` followed by `set_xid`. -/
def emptyMsg (ty : MsgType) (xid : List Nat) : Dhcpv6Msg :=
  { msgType := ty, xid := xid, clientId := none, serverId := none,
    elapsedTime := none, oro := none, iana := none }

/-- The hardcoded 16-byte client identifier `chaddr` of
`run_dhcpv6_client`. -/
def chaddr : List Nat :=
  [29, 30, 31, 32, 33, 34, 35, 36, 37, 38, 39, 40, 41, 42, 43, 44]

/-- The 16 bytes of the multicast destination `[FF02::1:2]`. -/
def multicastAddrBytes : List Nat :=
  [0xff, 0x02, 0, 0, 0, 0, 0, 0, 0, 0, 0, 0, 0, 1, 0, 2]

/-- The destination of every datagram the client sends:
`[FF02::1:2]:547`. -/
def multicastDest : List Nat × Nat := (multicastAddrBytes, 547)

/-- The SOLICIT message built at the top of `run_dhcpv6_client`, as a
function of the random 3-byte transaction id. -/
def buildSolicit (random_xid : List Nat) : Dhcpv6Msg :=
  { msgType := .solicit,
    xid := random_xid,
    clientId := some chaddr,
    serverId := none,
    elapsedTime := some 0,
    oro := some [.domainNameServers, .domainSearchList, .clientFqdn, .sntpServers],
    iana := some { id := 123, t1 := 3600, t2 := 7200,
                   iaaddr := some { addr := List.replicate 16 0,
                                    preferred_life := 3000,
                                    valid_life := 5000 } } }

/-- The REQUEST message the client sends in reaction to an ADVERTISE:
same xid, the hardcoded client id, ElapsedTime 0, the server id echoed
when the ADVERTISE carried one, and an IA_NA echoing the offered
address when one was present. -/
def buildRequest (random_xid : List Nat) (serverid : Option (List Nat))
    (ia_addr : Option IAAddrRec) : Dhcpv6Msg :=
  { msgType := .request,
    xid := random_xid,
    clientId := some chaddr,
    serverId := serverid,
    elapsedTime := some 0,
    oro := none,
    iana :=
      match ia_addr with
      | some ia_a =>
        some { id := 123, t1 := 3600, t2 := 7200,
               iaaddr := some { addr := ia_a.addr,
                                preferred_life := 3000,
                                valid_life := 5000 } }
      | none => none }

/-- Outcome of the receive loop together with the list of datagrams sent
so far (each to `multicastDest`). -/
inductive DhcpLoopOutcome where
  | gotReply (ia_addr_confirm : Option IAAddrRec) (sent : List Dhcpv6Msg)
  | ioError (sent : List Dhcpv6Msg)
  | blocked (sent : List Dhcpv6Msg)
  deriving DecidableEq, Repr

/-- The receive loop of `run_dhcpv6_client`: processes the finite trace
of incoming datagrams.  An empty trace leaves the client blocked inside
`recv_from`; a `none` entry is a datagram whose decode fails, which the
`?` operator turns into an error return. -/
def dhcpLoop (random_xid : List Nat) :
    List (Option Dhcpv6Msg) → List Dhcpv6Msg → DhcpLoopOutcome
  | [], sent => .blocked sent
  | none :: _, sent => .ioError sent
  | some resp :: rest, sent =>
    match resp.msgType with
    | .advertise =>
      let serverid := resp.serverId
      let ia_addr := resp.iana.bind (fun iana => iana.iaaddr)
      dhcpLoop random_xid rest (sent ++ [buildRequest random_xid serverid ia_addr])
    | .reply =>
      .gotReply (resp.iana.bind (fun iana => iana.iaaddr))
        (sent ++ [emptyMsg .confirm random_xid])
    | _ => dhcpLoop random_xid rest sent

/-- Result of `run_dhcpv6_client` on a finite incoming trace.  `ok`
carries the address the client then installs with prefix length 128;
`noValidAddress` is the final `Err("No valid address received")`. -/
inductive DhcpClientResult where
  | ok (addr : List Nat) (pfx_len : Nat) (sent : List Dhcpv6Msg)
  | noValidAddress (sent : List Dhcpv6Msg)
  | ioError (sent : List Dhcpv6Msg)
  | blocked (sent : List Dhcpv6Msg)
  deriving DecidableEq, Repr

/-- `run_dhcpv6_client` over a finite trace of incoming datagrams: build
and send the SOLICIT, run the loop, then either install the confirmed
address with prefix length 128 or fail. -/
def run_dhcpv6_client (random_xid : List Nat)
    (incoming : List (Option Dhcpv6Msg)) : DhcpClientResult :=
  match dhcpLoop random_xid incoming [buildSolicit random_xid] with
  | .gotReply (some ia_a) sent => .ok ia_a.addr 128 sent
  | .gotReply none sent => .noValidAddress sent
  | .ioError sent => .ioError sent
  | .blocked sent => .blocked sent

/-- Whether the client is still waiting inside the receive loop. -/
def DhcpClientResult.isBlocked : DhcpClientResult → Bool
  | .blocked _ => true
  | _ => false

/-! ### src/src/vm/mod.rs — the `Manager` (lines 27-164)

VM identifiers are modelled as their uuid strings; the registered map
`vms` becomes the list of registered id strings.  The error enum of the
file is mirrored constructor for constructor: it has no timeout
variant. -/

inductive VmError where
  | alreadyExists
  | notFound
  | socketFailure
  | invalidInput
  | chCommandFailure
  | chApiFailure
  | failed
  deriving DecidableEq, Repr

/-- Environment of `init_vmm`: whether the spawn of the hypervisor child
succeeds, and whether the api socket file exists at the i-th existence
poll. -/
structure InitEnv where
  spawnOk : Bool
  socketExists : Nat → Bool

/-- Result of `init_vmm`: the returned value, whether a child process
was spawned, and the total milliseconds slept while polling. -/
structure InitResult where
  result : Except VmError Unit
  spawned : Bool
  sleptMs : Nat
  deriving Repr

/-- The polling loop of `init_vmm`: at each of the remaining tries it
checks the socket, returns immediately when found, and otherwise sleeps
250 ms before the next try.  Returns whether the socket was found and
the milliseconds slept. -/
def pollSocket (socketExists : Nat → Bool) : Nat → Nat → Bool × Nat
  | 0, _ => (false, 0)
  | fuel + 1, i =>
    if socketExists i then (true, 0)
    else
      let r := pollSocket socketExists fuel (i + 1)
      (r.1, 250 + r.2)

/-- `Manager::init_vmm` (src/src/vm/mod.rs lines 61-99): AlreadyExists
when the id is registered, otherwise spawn; when `wait` is set, poll the
socket with `tries = 3`; whether or not the socket ever appeared the
function then returns Ok. -/
def init_vmm (vms : List String) (id : String) (wait : Bool)
    (env : InitEnv) : InitResult :=
  if vms.contains id then
    { result := .error .alreadyExists, spawned := false, sleptMs := 0 }
  else if !env.spawnOk then
    { result := .error .chCommandFailure, spawned := false, sleptMs := 0 }
  else if !wait then
    { result := .ok (), spawned := true, sleptMs := 0 }
  else
    let r := pollSocket env.socketExists 3 0
    { result := .ok (), spawned := true, sleptMs := r.2 }

/-- The fields of the cloud-hypervisor `VmConfig` that `create_vm`
fills in before issuing `PUT vm.create`. -/
structure VmConfig where
  boot_vcpus : Nat
  max_vcpus : Nat
  memory_size : Nat
  memory_shared : Bool
  firmware : String
  disk_path : String
  serial_socket : String
  deriving DecidableEq, Repr

/-- Environment of `create_vm`: whether the unix socket connect and the
hypervisor api call succeed. -/
structure CreateVmEnv where
  connectOk : Bool
  apiOk : Bool
  deriving DecidableEq, Repr

/-- Result of `create_vm`: the returned value and the configuration that
was written to the hypervisor api socket, when one was. -/
structure CreateVmResult where
  result : Except VmError Unit
  sentConfig : Option VmConfig
  deriving Repr

/-- `Manager::create_vm` (src/src/vm/mod.rs lines 101-164): NotFound for
an unregistered id; `u8::try_from(cpu)` makes any cpu count above 255 an
InvalidInput error; otherwise the config is built with the converted
cpu count as both boot and max vcpus, the shared memory flag, the
hardcoded firmware path, the root filesystem disk and the console
socket `id + ".console"`, and is sent over the api socket. -/
def create_vm (vms : List String) (id : String) (cpu : Nat) (memory : Nat)
    (root_fs : String) (env : CreateVmEnv) : CreateVmResult :=
  if !(vms.contains id) then
    { result := .error .notFound, sentConfig := none }
  else if 255 < cpu then
    { result := .error .invalidInput, sentConfig := none }
  else
    let cfg : VmConfig :=
      { boot_vcpus := cpu, max_vcpus := cpu,
        memory_size := memory, memory_shared := true,
        firmware := "/usr/share/cloud-hypervisor/hypervisor-fw",
        disk_path := root_fs,
        serial_socket := id ++ ".console" }
    if !env.connectOk then
      { result := .error .socketFailure, sentConfig := none }
    else if !env.apiOk then
      { result := .error .chApiFailure, sentConfig := some cfg }
    else
      { result := .ok (), sentConfig := some cfg }

/-! ### src/feos/services/task-service/src/worker.rs

Subprocess spawns are modelled by their spawn configuration (program,
arguments, stdio disposition); process and filesystem outcomes by an
environment record. -/

inductive StdioCfg where
  | inherited | piped | null
  deriving DecidableEq, Repr

structure SpawnConfig where
  program : String
  args : List String
  stdout : StdioCfg
  stderr : StdioCfg
  deriving DecidableEq, Repr

def YOUKI_BIN : String := "youki"

/-- `run_youki_command` (worker.rs lines 18-46) runs the binary through
`Command::output()` with both streams explicitly set to `Stdio::piped()`
so their contents can be put into the error message. -/
def run_youki_command_spawn (args : List String) : SpawnConfig :=
  { program := YOUKI_BIN, args := args, stdout := .piped, stderr := .piped }

/-- The spawn configuration of `handle_create` (worker.rs lines 56-79):
only this operation redirects both streams to `Stdio::null()`. -/
def handle_create_spawn (bundle_path id : String) : SpawnConfig :=
  { program := YOUKI_BIN,
    args := ["create", "--bundle", bundle_path,
             "--pid-file", bundle_path ++ "/container.pid", id],
    stdout := .null, stderr := .null }

/-- The spawn configuration of `handle_start` (worker.rs line 171). -/
def handle_start_spawn (id : String) : SpawnConfig :=
  run_youki_command_spawn ["start", id]

/-- The spawn configuration of `handle_kill` (worker.rs line 199). -/
def handle_kill_spawn (id signal : String) : SpawnConfig :=
  run_youki_command_spawn ["kill", id, signal]

/-- The spawn configuration of `handle_delete` (worker.rs line 210). -/
def handle_delete_spawn (id : String) : SpawnConfig :=
  run_youki_command_spawn ["delete", "--force", id]

inductive TaskErr where
  | youkiCommand (msg : String)
  | internal (msg : String)
  deriving DecidableEq, Repr

inductive CEvent where
  | containerCreateFailed
  | containerCreated (pid : Int)
  | containerStarted
  | containerStartFailed
  | containerStopped (exit_code : Int)
  | containerDeleted
  deriving DecidableEq, Repr

/-- Rust `str::trim` on the character list of a string: drop whitespace
from both ends. -/
def trimChars (cs : List Char) : List Char :=
  ((cs.dropWhile Char.isWhitespace).reverse.dropWhile Char.isWhitespace).reverse

/-- Rust `str::parse::<i32>`: an optional single leading sign followed
by at least one decimal digit, rejected when the value falls outside the
i32 range. -/
def parseI32 (cs : List Char) : Option Int :=
  match cs with
  | [] => none
  | c :: rest =>
    let (neg, digits) :=
      if c = '-' then (true, rest)
      else if c = '+' then (false, rest)
      else (false, c :: rest)
    if digits.isEmpty then none
    else if digits.all (fun d => d.isDigit) then
      let n : Nat := digits.foldl (fun a d => a * 10 + (d.toNat - 48)) 0
      let v : Int := if neg then -(n : Int) else (n : Int)
      if -2147483648 ≤ v ∧ v ≤ 2147483647 then some v else none
    else none

/-- Environment of `handle_create`: whether the spawn, the wait and the
exit status succeed, the content of the pid-file when it is readable
after the runtime ran (`none` = absent or unreadable), and whether
`remove_file` succeeds. -/
structure HandleCreateEnv where
  spawnOk : Bool
  waitOk : Bool
  exitSuccess : Bool
  pidFile : Option String
  removeOk : Bool
  deriving DecidableEq, Repr

/-- Result of `handle_create`: the value sent to the responder, the
events published, and whether a pid-file is still on disk when the
operation completes. -/
structure HandleCreateResult where
  response : Except TaskErr Int
  events : List CEvent
  pidFileRemains : Bool
  deriving Repr

/-- `handle_create` (worker.rs lines 50-161): spawn the runtime with
stdio nulled, wait, fail on non-zero exit; then read the pid-file,
parse its trimmed content as an i32 and remove it.  The removal is the
last step of the success chain only — no failure path deletes the
file, so it stays behind whenever it exists but its content does not
parse, and whenever it exists on the non-zero-exit path. -/
def handle_create (env : HandleCreateEnv) : HandleCreateResult :=
  if !env.spawnOk then
    { response := .error (.youkiCommand "Failed to spawn youki create"),
      events := [.containerCreateFailed],
      pidFileRemains := env.pidFile.isSome }
  else if !env.waitOk then
    { response := .error (.youkiCommand "Failed to wait for youki create process"),
      events := [.containerCreateFailed],
      pidFileRemains := env.pidFile.isSome }
  else if !env.exitSuccess then
    { response := .error (.youkiCommand "youki create exited with non-zero status"),
      events := [.containerCreateFailed],
      pidFileRemains := env.pidFile.isSome }
  else
    match env.pidFile with
    | none =>
      { response := .error (.internal "Could not read pid file"),
        events := [.containerCreateFailed],
        pidFileRemains := false }
    | some content =>
      match parseI32 (trimChars content.data) with
      | none =>
        { response := .error (.internal "Failed to parse PID from file"),
          events := [.containerCreateFailed],
          pidFileRemains := true }
      | some pid =>
        if env.removeOk then
          { response := .ok pid,
            events := [.containerCreated pid],
            pidFileRemains := false }
        else
          { response := .error (.internal "Could not remove pid file"),
            events := [.containerCreateFailed],
            pidFileRemains := true }

/-- The `nix::sys::wait::WaitStatus` variants. -/
inductive WaitStatus where
  | exited (pid : Int) (code : Int)
  | signaled (pid : Int) (signal : Nat) (core_dumped : Bool)
  | stopped (pid : Int) (signal : Nat)
  | ptraceEvent (pid : Int) (signal : Nat) (event : Int)
  | ptraceSyscall (pid : Int)
  | continued (pid : Int)
  | stillAlive
  deriving DecidableEq, Repr

/-- The exit-code computation of `wait_for_process_exit` (worker.rs
lines 236-249): the own code for a normal exit, 128 plus the signal
number for a signalled death, 255 for every other status. -/
def exitCodeOf : WaitStatus → Int
  | .exited _ code => code
  | .signaled _ signal _ => 128 + (signal : Int)
  | _ => 255

/-- `wait_for_process_exit` (worker.rs lines 222-258): on a waitpid
error it returns without publishing; otherwise it publishes one
ContainerStopped event carrying `exitCodeOf` of the status. -/
def wait_for_process_exit (wait_result : Except Unit WaitStatus) : List CEvent :=
  match wait_result with
  | .error _ => []
  | .ok status => [.containerStopped (exitCodeOf status)]

structure HandleStartResult where
  response : Except TaskErr Unit
  events : List CEvent
  reaperSpawned : Bool
  deriving Repr

/-- `handle_start` (worker.rs lines 164-191): on success of the youki
start command it publishes ContainerStarted, answers Ok and only then
spawns the background reaper on the container init pid; on failure it
publishes ContainerStartFailed, answers the error and spawns nothing. -/
def handle_start (youki_start : Except TaskErr Unit) : HandleStartResult :=
  match youki_start with
  | .ok _ =>
    { response := .ok (), events := [.containerStarted], reaperSpawned := true }
  | .error e =>
    { response := .error e, events := [.containerStartFailed], reaperSpawned := false }

/-! ### src/src/isolated_container/mod.rs — `retry_get_channel`
(lines 91-149) -/

/-- The handshake line the dialer writes:
`format!("CONNECT {}\n", 1337)`. -/
def connectLine : String := "CONNECT " ++ toString 1337 ++ "\n"

/-- Environment of one `get_channel` attempt: whether the unix connect
succeeds, whether the write succeeds, and the content of the first read
(`none` = read error). -/
structure DialEnv where
  connectOk : Bool
  writeOk : Bool
  firstRead : Option String

/-- Outcome of one `get_channel` attempt: the line whose write was
attempted on the socket, and whether a channel was obtained. -/
structure DialAttempt where
  written : Option String
  ok : Bool
  deriving DecidableEq, Repr

/-- One `get_channel` attempt: connect to the unix socket, write the
connect line, read once, succeed exactly when the response starts with
"OK". -/
def get_channel (env : DialEnv) : DialAttempt :=
  if !env.connectOk then { written := none, ok := false }
  else if !env.writeOk then { written := some connectLine, ok := false }
  else
    match env.firstRead with
    | none => { written := some connectLine, ok := false }
    | some response => { written := some connectLine, ok := response.startsWith "OK" }

def RETRIES : Nat := 20
def DELAY_MS : Nat := 2000

/-- Result of the retry loop: the returned value, the number of
attempts made, and the total milliseconds slept between attempts. -/
structure RetryResult where
  result : Except VmError Unit
  attempts : Nat
  sleptMs : Nat
  deriving Repr

/-- The loop body of `retry_get_channel`: `for attempt in 0..RETRIES`,
returning on the first success, otherwise sleeping `DELAY_MS` whenever
`attempt < RETRIES - 1`, and returning `Error::Failed` when the range
is exhausted. -/
def retryGo (envs : Nat → DialEnv) : Nat → Nat → RetryResult
  | 0, attempt => { result := .error .failed, attempts := attempt, sleptMs := 0 }
  | fuel + 1, attempt =>
    if (get_channel (envs attempt)).ok then
      { result := .ok (), attempts := attempt + 1, sleptMs := 0 }
    else
      let r := retryGo envs fuel (attempt + 1)
      { result := r.result, attempts := r.attempts,
        sleptMs := (if attempt < RETRIES - 1 then DELAY_MS else 0) + r.sleptMs }

/-- `retry_get_channel` over the per-attempt environments. -/
def retry_get_channel (envs : Nat → DialEnv) : RetryResult :=
  retryGo envs RETRIES 0

/-! ## Theorems -/

/-- C9: the MAC-to-link-local conversion is total: it returns some
address exactly when the input has length 6, and then the address is
fe80:: with interface identifier (mac0 XOR 0x02, mac1, mac2, 0xff,
0xfe, mac3, mac4, mac5); bytes 2 through 7 of the address are zero. -/
theorem C9_mac_to_ipv6_link_local (mac : List Nat) :
    ((mac_to_ipv6_link_local mac).isSome ↔ mac.length = 6) ∧
    (∀ m0 m1 m2 m3 m4 m5, mac = [m0, m1, m2, m3, m4, m5] →
      mac_to_ipv6_link_local mac =
        some [0xfe, 0x80, 0, 0, 0, 0, 0, 0,
              m0 ^^^ 0x02, m1, m2, 0xff, 0xfe, m3, m4, m5]) := by
  constructor
  · unfold mac_to_ipv6_link_local
    by_cases h : mac.length = 6 <;> simp [h]
  · rintro m0 m1 m2 m3 m4 m5 rfl
    rfl

/-- C9 witness: evaluation at the concrete MAC 52:54:00:12:34:56. -/
theorem C9_mac_to_ipv6_link_local_witness :
    ((mac_to_ipv6_link_local [0x52, 0x54, 0x00, 0x12, 0x34, 0x56]).isSome ↔
      ([0x52, 0x54, 0x00, 0x12, 0x34, 0x56] : List Nat).length = 6) ∧
    mac_to_ipv6_link_local [0x52, 0x54, 0x00, 0x12, 0x34, 0x56] =
      some [0xfe, 0x80, 0, 0, 0, 0, 0, 0,
            0x50, 0x54, 0x00, 0xff, 0xfe, 0x12, 0x34, 0x56] :=
  ⟨(C9_mac_to_ipv6_link_local [0x52, 0x54, 0x00, 0x12, 0x34, 0x56]).1,
   (C9_mac_to_ipv6_link_local [0x52, 0x54, 0x00, 0x12, 0x34, 0x56]).2
     0x52 0x54 0x00 0x12 0x34 0x56 rfl⟩

/-- C1 counterexample: the claim says the probe proceeds to DHCPv6
exactly when the M flag is set or ignore_ra_flag is true, and otherwise
returns at once with the routers address.  Both directions fail on the
code: an RA with only the M flag set (flags 0x80) and ignore_ra_flag
false does not make the probe proceed, because the code tests
(flags AND 0xC0) == 0xC0, that is M and O together; and an RA with M
clear does not end the probe, which keeps listening and proceeds on a
later RA that has both flags set. -/
theorem C1_counterexample :
    (is_dhcpv6_needed false [raFrame 0x80 sampleRouterAddr]).1 = false ∧
    (is_dhcpv6_needed false
      [raFrame 0x00 sampleRouterAddr, raFrame 0xC0 sampleRouterAddr]).1 = true := by
  constructor <;> rfl

/-- Helper: the break flag of the receive loop of `is_dhcpv6_needed`
does not depend on the accumulated sender address and equals
`List.any` of the per-frame break test. -/
theorem is_dhcpv6_needed_loop_broke (ignore_ra_flag : Bool)
    (frames : List RecvFrame) (sender : Option (List Nat)) :
    (is_dhcpv6_needed_loop ignore_ra_flag frames sender).1
      = frames.any (frameProceeds ignore_ra_flag) := by
  induction frames generalizing sender with
  | nil => rfl
  | cons f rest ih =>
    by_cases he : f.ethertypeIpv6
    · by_cases hp : frameProceeds ignore_ra_flag f
      · simp [is_dhcpv6_needed_loop, he, hp]
      · simp [is_dhcpv6_needed_loop, he, hp, ih]
    · have hp : frameProceeds ignore_ra_flag f = false := by
        simp [frameProceeds, he]
      simp [is_dhcpv6_needed_loop, he, hp, ih]

/-- C1 (amended): the DHCPv6-need probe proceeds to DHCPv6 (breaks out
of its receive loop) exactly when the received trace contains a
parseable Router Advertisement whose flags have both the M and the O
bit set ((flags AND 0xC0) == 0xC0) or ignore_ra_flag is true; an RA
failing that test never ends the probe, which keeps listening until the
channel is exhausted.  No UDP socket is involved in the probe. -/
theorem C1_probe_proceeds_iff (ignore_ra_flag : Bool) (frames : List RecvFrame) :
    (is_dhcpv6_needed ignore_ra_flag frames).1
      = frames.any (frameProceeds ignore_ra_flag) :=
  is_dhcpv6_needed_loop_broke ignore_ra_flag frames none

/-- C2 counterexample: the claim says init polls for up to 2 seconds at
250 ms intervals and returns a SocketTimeout error when the socket never
appears.  On the code, with the socket never appearing, init_vmm with
wait polls only 3 times, sleeps 750 ms in total and returns Ok; the
error type of src/src/vm/mod.rs has no timeout variant at all. -/
theorem C2_counterexample :
    (init_vmm [] "vm-1" true
      { spawnOk := true, socketExists := fun _ => false }).result = .ok () ∧
    (init_vmm [] "vm-1" true
      { spawnOk := true, socketExists := fun _ => false }).sleptMs = 750 := by
  constructor <;> rfl

/-- C2 (amended): init_vmm with wait polls for the existence of the api
socket at most 3 times at 250 ms intervals (at most 750 ms in total,
exactly 750 ms when the socket never appears) and then returns Ok even
if the socket never appeared; it returns AlreadyExists, spawning no
process and sleeping not at all, whenever the id is already
registered. -/
theorem C2_init_vmm (vms : List String) (id : String) (env : InitEnv) :
    (vms.contains id = true →
      init_vmm vms id true env
        = { result := .error .alreadyExists, spawned := false, sleptMs := 0 }) ∧
    (vms.contains id = false → env.spawnOk = true →
      (init_vmm vms id true env).result = .ok () ∧
      (init_vmm vms id true env).sleptMs ≤ 750 ∧
      ((∀ i, env.socketExists i = false) →
        (init_vmm vms id true env).sleptMs = 750)) := by
  refine ⟨fun hreg => ?_, fun hreg hspawn => ?_⟩
  · have hmem : id ∈ vms := by simpa using hreg
    simp [init_vmm, hmem]
  · have hmem : id ∉ vms := by simpa using hreg
    refine ⟨by simp [init_vmm, hmem, hspawn], ?_, fun hnever => ?_⟩
    · by_cases h0 : env.socketExists 0 <;>
        by_cases h1 : env.socketExists 1 <;>
        by_cases h2 : env.socketExists 2 <;>
        simp [init_vmm, hmem, hspawn, pollSocket, h0, h1, h2]
    · simp [init_vmm, hmem, hspawn, pollSocket, hnever 0, hnever 1, hnever 2]

/-- C2 witness: evaluation of both branches of the theorem at concrete
inputs: a registered id yields AlreadyExists without spawning, and an
unregistered id with a socket that never appears yields Ok after 750 ms
of polling. -/
theorem C2_init_vmm_witness :
    init_vmm ["vm-0"] "vm-0" true
        { spawnOk := true, socketExists := fun _ => false }
      = { result := .error .alreadyExists, spawned := false, sleptMs := 0 } ∧
    (init_vmm ["vm-0"] "vm-9" true
        { spawnOk := true, socketExists := fun _ => false }).result = .ok () ∧
    (init_vmm ["vm-0"] "vm-9" true
        { spawnOk := true, socketExists := fun _ => false }).sleptMs = 750 :=
  ⟨(C2_init_vmm ["vm-0"] "vm-0" _).1 rfl,
   ((C2_init_vmm ["vm-0"] "vm-9" _).2 rfl rfl).1,
   ((C2_init_vmm ["vm-0"] "vm-9" _).2 rfl rfl).2.2 (fun _ => rfl)⟩

/-- C10: for a registered VM id, create_vm returns InvalidInput whenever
the requested cpu count exceeds 255, although the interface accepts a
32-bit cpu count; any configuration actually forwarded to the
hypervisor carries a cpu count representable as u8, equal to the
requested one. -/
theorem C10_create_vm_cpu_guard (vms : List String) (id : String)
    (cpu memory : Nat) (root_fs : String) (env : CreateVmEnv)
    (hreg : vms.contains id = true) (hcpu : cpu < 2 ^ 32) :
    (255 < cpu → create_vm vms id cpu memory root_fs env
        = { result := .error .invalidInput, sentConfig := none }) ∧
    (∀ cfg, (create_vm vms id cpu memory root_fs env).sentConfig = some cfg →
      cfg.boot_vcpus = cpu ∧ cfg.max_vcpus = cpu ∧ cpu ≤ 255) := by
  have hmem : id ∈ vms := by simpa using hreg
  constructor
  · intro hbig
    simp [create_vm, hmem, hbig]
  · intro cfg hsent
    by_cases hbig : 255 < cpu
    · simp [create_vm, hmem, hbig] at hsent
    · by_cases hconn : env.connectOk
      · by_cases happi : env.apiOk
        · rw [show create_vm vms id cpu memory root_fs env
                = { result := .ok (),
                    sentConfig := some
                      { boot_vcpus := cpu, max_vcpus := cpu,
                        memory_size := memory, memory_shared := true,
                        firmware := "/usr/share/cloud-hypervisor/hypervisor-fw",
                        disk_path := root_fs,
                        serial_socket := id ++ ".console" } } from by
            simp [create_vm, hmem, hbig, hconn, happi]] at hsent
          obtain rfl := Option.some.inj hsent
          exact ⟨rfl, rfl, Nat.not_lt.mp hbig⟩
        · rw [show create_vm vms id cpu memory root_fs env
                = { result := .error .chApiFailure,
                    sentConfig := some
                      { boot_vcpus := cpu, max_vcpus := cpu,
                        memory_size := memory, memory_shared := true,
                        firmware := "/usr/share/cloud-hypervisor/hypervisor-fw",
                        disk_path := root_fs,
                        serial_socket := id ++ ".console" } } from by
            simp [create_vm, hmem, hbig, hconn, happi]] at hsent
          obtain rfl := Option.some.inj hsent
          exact ⟨rfl, rfl, Nat.not_lt.mp hbig⟩
      · simp [create_vm, hmem, hbig, hconn] at hsent

/-- C10 witness: with id registered, cpu 256 is rejected as
InvalidInput, while cpu 2 is forwarded unchanged. -/
theorem C10_create_vm_cpu_guard_witness :
    create_vm ["v"] "v" 256 1073741824 "/images/root.img"
        { connectOk := true, apiOk := true }
      = { result := .error .invalidInput, sentConfig := none } ∧
    ({ boot_vcpus := 2, max_vcpus := 2, memory_size := 1073741824,
       memory_shared := true,
       firmware := "/usr/share/cloud-hypervisor/hypervisor-fw",
       disk_path := "/images/root.img",
       serial_socket := "v" ++ ".console" : VmConfig }.boot_vcpus = 2 ∧
     ({ boot_vcpus := 2, max_vcpus := 2, memory_size := 1073741824,
        memory_shared := true,
        firmware := "/usr/share/cloud-hypervisor/hypervisor-fw",
        disk_path := "/images/root.img",
        serial_socket := "v" ++ ".console" : VmConfig }.max_vcpus = 2 ∧
      (2 : Nat) ≤ 255)) :=
  ⟨(C10_create_vm_cpu_guard ["v"] "v" 256 1073741824 "/images/root.img"
      { connectOk := true, apiOk := true } rfl (by norm_num)).1 (by norm_num),
   (C10_create_vm_cpu_guard ["v"] "v" 2 1073741824 "/images/root.img"
      { connectOk := true, apiOk := true } rfl (by norm_num)).2 _ rfl⟩

/-- C3 counterexample: the claim says no pid-file remains at
bundle_path/container.pid when the create operation completes,
regardless of success or failure.  On the code, when the runtime exits
zero but the pid-file content does not parse as an i32, the operation
completes with an error and the pid-file is still on disk: the removal
is only reached after a successful parse. -/
theorem C3_counterexample :
    (handle_create { spawnOk := true, waitOk := true, exitSuccess := true,
                     pidFile := some "abc", removeOk := true }).pidFileRemains = true ∧
    (handle_create { spawnOk := true, waitOk := true, exitSuccess := true,
                     pidFile := some "abc", removeOk := true }).response
      = .error (.internal "Failed to parse PID from file") := by
  constructor <;> rfl

/-- C3 (amended): on success the pid-file is read, parsed and then
deleted, so no pid-file remains; a non-zero runtime exit or an
unreadable pid-file yields an error; but the failure paths do not clean
up: a pid-file present on the non-zero-exit path, an unparsable
pid-file, and a pid-file whose removal fails all leave the file behind
when the operation completes. -/
theorem C3_handle_create (env : HandleCreateEnv) :
    (env.spawnOk = true → env.waitOk = true → env.exitSuccess = true →
      ∀ content pid, env.pidFile = some content →
        parseI32 (trimChars content.data) = some pid → env.removeOk = true →
        handle_create env
          = { response := .ok pid, events := [.containerCreated pid],
              pidFileRemains := false }) ∧
    (env.spawnOk = true → env.waitOk = true → env.exitSuccess = false →
      (handle_create env).response
          = .error (.youkiCommand "youki create exited with non-zero status") ∧
      (handle_create env).pidFileRemains = env.pidFile.isSome) ∧
    (env.spawnOk = true → env.waitOk = true → env.exitSuccess = true →
      env.pidFile = none →
      (handle_create env).response = .error (.internal "Could not read pid file")) ∧
    (env.spawnOk = true → env.waitOk = true → env.exitSuccess = true →
      ∀ content, env.pidFile = some content →
        parseI32 (trimChars content.data) = none →
        (handle_create env).response = .error (.internal "Failed to parse PID from file") ∧
        (handle_create env).pidFileRemains = true) := by
  refine ⟨?_, ?_, ?_, ?_⟩
  · intro h1 h2 h3 content pid hfile hparse h5
    simp [handle_create, h1, h2, h3, hfile, hparse, h5]
  · intro h1 h2 h3
    constructor <;> simp [handle_create, h1, h2, h3]
  · intro h1 h2 h3 hfile
    simp [handle_create, h1, h2, h3, hfile]
  · intro h1 h2 h3 content hfile hparse
    constructor <;> simp [handle_create, h1, h2, h3, hfile, hparse]

/-- C3 witness: success path at pid-file content "42", and the
non-zero-exit path with a pid-file present. -/
theorem C3_handle_create_witness :
    handle_create { spawnOk := true, waitOk := true, exitSuccess := true,
                    pidFile := some "42", removeOk := true }
      = { response := .ok 42, events := [.containerCreated 42],
          pidFileRemains := false } ∧
    (handle_create { spawnOk := true, waitOk := true, exitSuccess := false,
                     pidFile := some "42", removeOk := true }).pidFileRemains
      = (some "42" : Option String).isSome := by
  constructor
  · exact (C3_handle_create
      { spawnOk := true, waitOk := true, exitSuccess := true,
        pidFile := some "42", removeOk := true }).1 rfl rfl rfl "42" 42 rfl rfl rfl
  · exact ((C3_handle_create
      { spawnOk := true, waitOk := true, exitSuccess := false,
        pidFile := some "42", removeOk := true }).2.1 rfl rfl rfl).2

/-- Whether the receive loop is still waiting for a datagram. -/
def DhcpLoopOutcome.isBlocked : DhcpLoopOutcome → Bool
  | .blocked _ => true
  | _ => false

/-- C4 counterexample: the claim says every wait phase is bounded by a
5 second deadline with at most 3 retries and then terminates with
LeaseAcquisitionFailed.  The code has no deadline and no retry
anywhere: after 10 fruitless datagrams the client is still blocked in
its receive loop, having produced no failure value; the result type
(mirroring the code) has no lease-acquisition-failure variant. -/
theorem C4_counterexample :
    run_dhcpv6_client [1, 2, 3]
        (List.replicate 10 (some (emptyMsg .solicit [9, 9, 9])))
      = .blocked [buildSolicit [1, 2, 3]] := by
  rfl

/-- A datagram that does not end the receive loop: it decodes, and its
message type is not REPLY. -/
def dhcpNonTerminating (m : Option Dhcpv6Msg) : Bool :=
  match m with
  | none => false
  | some r => !(r.msgType == .reply)

/-- Helper: a trace of decodable non-REPLY datagrams leaves the receive
loop of `run_dhcpv6_client` blocked, whatever was sent so far. -/
theorem dhcpLoop_blocked_of_no_reply (random_xid : List Nat)
    (incoming : List (Option Dhcpv6Msg))
    (h : incoming.all dhcpNonTerminating = true) :
    ∀ sent, (dhcpLoop random_xid incoming sent).isBlocked = true := by
  induction incoming with
  | nil => intro sent; rfl
  | cons m rest ih =>
    intro sent
    rw [List.all_cons, Bool.and_eq_true] at h
    have ih2 := ih h.2
    match m with
    | none => simp [dhcpNonTerminating] at h
    | some resp =>
      have hnr : ¬ resp.msgType = MsgType.reply := by
        have := h.1
        simpa [dhcpNonTerminating] using this
      rcases hty : resp.msgType with _ | _ | _ | _ | _ | _
      · simpa [dhcpLoop, hty] using ih2 sent
      · simpa [dhcpLoop, hty] using
          ih2 (sent ++ [buildRequest random_xid resp.serverId
            (resp.iana.bind (fun iana => iana.iaaddr))])
      · simpa [dhcpLoop, hty] using ih2 sent
      · exact absurd hty hnr
      · simpa [dhcpLoop, hty] using ih2 sent
      · simpa [dhcpLoop, hty] using ih2 sent

/-- C4 (amended): no wait phase of the uplink DHCPv6 acquisition has a
deadline or a retry: the client sends one SOLICIT and then blocks in
its receive loop until a REPLY (or a decode error) arrives; on any
finite trace of decodable non-REPLY responses — however long — it is
still waiting, and no LeaseAcquisitionFailed (or any failure) value is
produced. -/
theorem C4_no_deadline_no_retry (random_xid : List Nat)
    (incoming : List (Option Dhcpv6Msg))
    (h : incoming.all dhcpNonTerminating = true) :
    (run_dhcpv6_client random_xid incoming).isBlocked = true := by
  have hb := dhcpLoop_blocked_of_no_reply random_xid incoming h
    [buildSolicit random_xid]
  unfold run_dhcpv6_client
  rcases hloop : dhcpLoop random_xid incoming [buildSolicit random_xid] with
    ⟨iac, sent⟩ | sent | sent
  · rw [hloop] at hb; simp [DhcpLoopOutcome.isBlocked] at hb
  · rw [hloop] at hb; simp [DhcpLoopOutcome.isBlocked] at hb
  · rfl

/-- C4 witness: a trace holding an ADVERTISE (which triggers the
REQUEST send) followed by a stray SOLICIT leaves the client blocked. -/
theorem C4_no_deadline_no_retry_witness :
    (run_dhcpv6_client [1, 2, 3]
        [some { msgType := .advertise, xid := [1, 2, 3],
                clientId := none, serverId := some [0, 1],
                elapsedTime := none, oro := none,
                iana := some { id := 123, t1 := 3600, t2 := 7200,
                               iaaddr := some { addr := sampleRouterAddr,
                                                preferred_life := 3000,
                                                valid_life := 5000 } } },
         some (emptyMsg .solicit [9, 9, 9])]).isBlocked = true :=
  C4_no_deadline_no_retry [1, 2, 3] _ rfl

/-- C5: the exit code published in the stop event equals the own exit
code for a normal exit, 128 plus the signal number for a
signal-terminated child, and 255 for any other termination status; the
background reaper on the container init pid is spawned exactly on the
success path of the start operation. -/
theorem C5_exit_codes_and_reaper :
    (∀ pid code, exitCodeOf (.exited pid code) = code) ∧
    (∀ pid signal core, exitCodeOf (.signaled pid signal core) = 128 + (signal : Int)) ∧
    (∀ pid signal, exitCodeOf (.stopped pid signal) = 255) ∧
    (∀ pid signal event, exitCodeOf (.ptraceEvent pid signal event) = 255) ∧
    (∀ pid, exitCodeOf (.ptraceSyscall pid) = 255) ∧
    (∀ pid, exitCodeOf (.continued pid) = 255) ∧
    exitCodeOf .stillAlive = 255 ∧
    (∀ ws, wait_for_process_exit (.ok ws) = [.containerStopped (exitCodeOf ws)]) ∧
    wait_for_process_exit (.error ()) = [] ∧
    (handle_start (.ok ())).reaperSpawned = true ∧
    (handle_start (.ok ())).events = [.containerStarted] ∧
    (∀ e, (handle_start (.error e)).reaperSpawned = false ∧
          (handle_start (.error e)).response = .error e) := by
  refine ⟨fun _ _ => rfl, fun _ _ _ => rfl, fun _ _ => rfl, fun _ _ _ => rfl,
    fun _ => rfl, fun _ => rfl, rfl, fun _ => rfl, rfl, rfl, rfl,
    fun _ => ⟨rfl, rfl⟩⟩

/-- C6: the vsock dialer writes exactly the line CONNECT 1337 followed
by a newline, succeeds only when the first read begins with OK, makes
at most 20 connection attempts with 2000 ms pauses between consecutive
attempts, and returns the failure error after the 20th failed
attempt. -/
theorem C6_retry_get_channel (envs : Nat → DialEnv) :
    (∀ env s, (get_channel env).written = some s → s = "CONNECT 1337\n") ∧
    (∀ env, (get_channel env).ok = true →
      (get_channel env).written = some "CONNECT 1337\n" ∧
      ∃ response, env.firstRead = some response ∧
        response.startsWith "OK" = true) ∧
    (retry_get_channel envs).attempts ≤ 20 ∧
    ((∀ i, i < 20 → (get_channel (envs i)).ok = false) →
      retry_get_channel envs
        = { result := .error .failed, attempts := 20, sleptMs := 19 * 2000 }) := by
  have hline : connectLine = "CONNECT 1337\n" := rfl
  refine ⟨?_, ?_, ?_, ?_⟩
  · intro env s hw
    unfold get_channel at hw
    by_cases hc : env.connectOk
    · by_cases hwk : env.writeOk
      · rcases hread : env.firstRead with _ | response <;>
          simp [hc, hwk, hread, hline] at hw <;> exact hw.symm
      · simp [hc, hwk, hline] at hw; exact hw.symm
    · simp [hc] at hw
  · intro env hok
    unfold get_channel at hok ⊢
    by_cases hc : env.connectOk
    · by_cases hwk : env.writeOk
      · rcases hread : env.firstRead with _ | response
        · simp [hc, hwk, hread] at hok
        · simp [hc, hwk, hread, hline] at hok ⊢
          exact hok
      · simp [hc, hwk] at hok
    · simp [hc] at hok
  · have hgen : ∀ fuel attempt, (retryGo envs fuel attempt).attempts ≤ attempt + fuel := by
      intro fuel
      induction fuel with
      | zero => intro attempt; simp [retryGo]
      | succ n ih =>
        intro attempt
        by_cases hok : (get_channel (envs attempt)).ok
        · simp [retryGo, hok]
        · have := ih (attempt + 1)
          simp [retryGo, hok]
          omega
    simpa [retry_get_channel, RETRIES] using hgen 20 0
  · intro hfail
    have hgen : ∀ fuel attempt, attempt + fuel = 20 →
        retryGo envs fuel attempt
          = { result := .error .failed, attempts := 20,
              sleptMs := (fuel - 1) * 2000 } := by
      intro fuel
      induction fuel with
      | zero => intro attempt h20; simp [retryGo]; omega
      | succ n ih =>
        intro attempt h20
        have hok : (get_channel (envs attempt)).ok = false :=
          hfail attempt (by omega)
        have hrec := ih (attempt + 1) (by omega)
        by_cases hlast : attempt < RETRIES - 1
        · have hn1 : 1 ≤ n := by simp [RETRIES] at hlast; omega
          simp [retryGo, hok, hrec, hlast, DELAY_MS]
          omega
        · have hn : n = 0 := by simp [RETRIES] at hlast; omega
          subst hn
          simp [retryGo, hok, hrec, hlast]
          omega
    simpa [retry_get_channel, RETRIES] using hgen 20 0 (by omega)

/-- C6 witness: with every attempt failing to connect, the dialer makes
exactly 20 attempts, sleeps 19 times 2000 ms and returns the failure
error. -/
theorem C6_retry_get_channel_witness :
    retry_get_channel
        (fun _ => { connectOk := false, writeOk := true, firstRead := none })
      = { result := .error .failed, attempts := 20, sleptMs := 19 * 2000 } :=
  (C6_retry_get_channel
    (fun _ => { connectOk := false, writeOk := true, firstRead := none })).2.2.2
    (fun _ _ => rfl)

/-- C7 counterexample: the claim says every OCI-runtime operation is
spawned with stdout and stderr redirected to /dev/null and never piped.
On the code, the start operation (like kill and delete) goes through
run_youki_command, which spawns with both streams piped. -/
theorem C7_counterexample :
    (handle_start_spawn "c1").stdout = .piped ∧
    (handle_start_spawn "c1").stderr = .piped := by
  exact ⟨rfl, rfl⟩

/-- C7 (amended): only the create operation spawns the runtime with
stdout and stderr redirected to /dev/null; start, kill and delete spawn
it with both streams piped (captured through output()); no operation
lets the runtime inherit the callers stdio. -/
theorem C7_stdio_disposition (bundle_path id signal : String) :
    ((handle_create_spawn bundle_path id).stdout = .null ∧
     (handle_create_spawn bundle_path id).stderr = .null) ∧
    ((handle_start_spawn id).stdout = .piped ∧
     (handle_start_spawn id).stderr = .piped) ∧
    ((handle_kill_spawn id signal).stdout = .piped ∧
     (handle_kill_spawn id signal).stderr = .piped) ∧
    ((handle_delete_spawn id).stdout = .piped ∧
     (handle_delete_spawn id).stderr = .piped) ∧
    (∀ args, (run_youki_command_spawn args).stdout ≠ .inherited ∧
             (run_youki_command_spawn args).stderr ≠ .inherited) := by
  exact ⟨⟨rfl, rfl⟩, ⟨rfl, rfl⟩, ⟨rfl, rfl⟩, ⟨rfl, rfl⟩,
    fun _ => ⟨by simp [run_youki_command_spawn], by simp [run_youki_command_spawn]⟩⟩

/-- C8 counterexample: the claim says the SOLICIT contains a newly
generated 16-byte client DUID.  The DUID the code uses is the fixed
hardcoded byte list 29..44: it is the same constant whatever the
per-invocation randomness (here: two different transaction ids), so it
is never newly generated. -/
theorem C8_counterexample :
    (buildSolicit [1, 2, 3]).clientId = (buildSolicit [200, 100, 50]).clientId ∧
    (buildSolicit [1, 2, 3]).clientId = some chaddr := by
  exact ⟨rfl, rfl⟩

/-- C8 (amended): every SOLICIT built by the DHCPv6 client contains the
fixed hardcoded 16-byte client DUID 29..44, the random 24-bit
transaction id it was given, ElapsedTime=0, an ORO requesting DNS
servers, DNS search list, client FQDN and SNTP servers, and an IA_NA
with id=123, T1=3600, T2=7200 containing an IA_ADDR (on the unspecified
address) with preferred lifetime 3000 and valid lifetime 5000; the
destination of every datagram the client sends is [ff02::1:2]:547. -/
theorem C8_solicit_contents (random_xid : List Nat) :
    (buildSolicit random_xid).msgType = .solicit ∧
    (buildSolicit random_xid).xid = random_xid ∧
    (buildSolicit random_xid).clientId = some chaddr ∧
    chaddr.length = 16 ∧
    chaddr = [29, 30, 31, 32, 33, 34, 35, 36, 37, 38, 39, 40, 41, 42, 43, 44] ∧
    (buildSolicit random_xid).elapsedTime = some 0 ∧
    (buildSolicit random_xid).oro
      = some [.domainNameServers, .domainSearchList, .clientFqdn, .sntpServers] ∧
    (buildSolicit random_xid).iana
      = some { id := 123, t1 := 3600, t2 := 7200,
               iaaddr := some { addr := List.replicate 16 0,
                                preferred_life := 3000,
                                valid_life := 5000 } } ∧
    multicastDest
      = ([0xff, 0x02, 0, 0, 0, 0, 0, 0, 0, 0, 0, 0, 0, 1, 0, 2], 547) := by
  exact ⟨rfl, rfl, rfl, rfl, rfl, rfl, rfl, rfl, rfl⟩

end FeOS
